import Mathlib

/-!
Shallow embedding of the duso benchmark scripts
(`bench/benchmark.py`, `bench/spawn_benchmark.py`,
`bench/spawn_benchmark_spawn_only.py`, `bench/spawn_benchmark_fetch.py`,
`bench/spawn_benchmark_fetch_lite.py`,
`bench/spawn_benchmark_fetch_lite_memory.py`) and proofs of the spec's
claims about them.

Python `for i in range(lo, hi)` loops with an accumulator are embedded as
`pyFor`, a left fold over `List.range' lo (hi - lo)`.  Clock samples
(`time.time() * 1000`) are modelled as rational parameters supplied to the
embedded code in program order.  The outcome of each outbound HTTP GET is
modelled as an environment value (`Attempt`), since the network is outside
the program.
-/

/-- Embedding of Python `for i in range(lo, hi)` with accumulator `init`
updated by `f` at each iteration (in increasing order of `i`). -/
def pyFor (lo hi : Nat) (f : α → Nat → α) (init : α) : α :=
  (List.range' lo (hi - lo)).foldl f init

namespace BenchmarkPy

/-- Embedding of `bench/benchmark.py`, `test_arithmetic`:
`sum = 0; for i in range(1, 1000001): sum = sum + i % 10; return sum`. -/
def test_arithmetic : Nat :=
  pyFor 1 1000001 (fun sum i => sum + i % 10) 0

/-- Embedding of `bench/benchmark.py`, `test_nested_loops`:
double loop over `i, j in range(1, 101)` accumulating `sum + i * j`. -/
def test_nested_loops : Nat :=
  pyFor 1 101 (fun sum i => pyFor 1 101 (fun sum2 j => sum2 + i * j) sum) 0

/-- Python's round-half-even tie-breaking used by `format(x, '.1f')`,
applied to a rational: nearest integer, ties to the even one. -/
def roundHalfEven (q : ℚ) : ℤ :=
  let f : ℤ := ⌊q⌋
  if q - f < 1 / 2 then f
  else if 1 / 2 < q - f then f + 1
  else if f % 2 = 0 then f else f + 1

/-- Rendering of `f-string` field `{elapsed:.1f}` for a (non-negative)
elapsed value: the value rounded to tenths, printed with exactly one digit
after the decimal point. -/
def fmt1 (q : ℚ) : String :=
  let tenths : ℤ := roundHalfEven (10 * q)
  toString (tenths / 10) ++ "." ++ String.singleton (Nat.digitChar (tenths % 10).toNat)

/-- Elapsed-milliseconds computation `time.time() * 1000 - start`, given the
two clock samples in program order. -/
def elapsedMs (start finish : ℚ) : ℚ := finish - start

/-- Embedding of `bench/benchmark.py`, `benchmark(name, fn)`.  The workload `fn` is an
effectful computation over an arbitrary state `σ` which may fail with an
exception `ε` (Python's raised exception).  `t0`/`t1` are the clock samples
taken immediately before and after the call of `fn`.  Returns the
workload's outcome together with the list of lines printed to stdout:
on success the single `name: <elapsed>ms` line, on an exception nothing
(the `print` is never reached and the exception propagates). -/
def benchmark (name : String) (fn : σ → Except ε (α × σ)) (t0 t1 : ℚ)
    (s0 : σ) : Except ε (α × σ) × List String :=
  match fn s0 with
  | Except.error e => (Except.error e, [])
  | Except.ok rs => (Except.ok rs, [name ++ ": " ++ fmt1 (elapsedMs t0 t1) ++ "ms"])

end BenchmarkPy

/-! Helper lemmas about the arithmetic loop. -/

/-- One decade of the arithmetic loop adds exactly `1+2+⋯+9+0 = 45`. -/
lemma foldl_mod10_decade (a acc : Nat) :
    (List.range' (10 * a + 1) 10).foldl (fun s i => s + i % 10) acc = acc + 45 := by
  have h : List.range' (10 * a + 1) 10 =
      (List.range 10).map (fun k => 10 * a + 1 + k) := by
    rw [List.range'_eq_map_range]
  rw [h]
  have h10 : List.range 10 = [0, 1, 2, 3, 4, 5, 6, 7, 8, 9] := rfl
  rw [h10]
  simp only [List.map, List.foldl]
  omega

/-- The arithmetic loop over `[1, 10n]` sums to `45 n`. -/
lemma foldl_mod10_range (n : Nat) :
    ∀ acc : Nat, (List.range' 1 (10 * n)).foldl (fun s i => s + i % 10) acc
      = acc + 45 * n := by
  induction n with
  | zero => intro acc; simp
  | succ m ih =>
      intro acc
      have hsplit : List.range' 1 (10 * (m + 1)) =
          List.range' 1 (10 * m) ++ List.range' (10 * m + 1) 10 := by
        rw [show 10 * (m + 1) = 10 + 10 * m from by omega,
          ← List.range'_append_1 1 (10 * m) 10,
          show 1 + 10 * m = 10 * m + 1 from by omega]
      rw [hsplit, List.foldl_append, ih acc, foldl_mod10_decade]
      omega

/-- The arithmetic workload evaluates to `4,500,000`. -/
lemma arith_loop_value :
    pyFor 1 1000001 (fun sum i => sum + i % 10) 0 = 4500000 := by
  show (List.range' 1 (1000001 - 1)).foldl (fun s i => s + i % 10) 0 = 4500000
  have h : (1000001 - 1 : Nat) = 10 * 100000 := by norm_num
  rw [h, foldl_mod10_range 100000 0]

/-! The HTTP fetch workers
(`bench/spawn_benchmark_fetch.py`, `bench/spawn_benchmark_fetch_lite.py`,
`bench/spawn_benchmark_fetch_lite_memory.py` — the three `worker`
definitions are textually identical). -/

/-- Outcome of one `requests.get("https://httpbin.org/delay/1", timeout=15)`
call, supplied by the environment: either the call returns a response with
some status code, or it raises an exception with message `str(e)`
(timeout, connection error, …). -/
inductive Attempt where
  | response (status_code : Nat)
  | exception (msg : String)
deriving DecidableEq

/-- One dict appended to the worker's `results` list: either
`{"attempt": i, "status": code}` or `{"attempt": i, "error": str(e)}`. -/
inductive ResultEntry where
  | success (attempt : Nat) (status : Nat)
  | failure (attempt : Nat) (error : String)
deriving DecidableEq

/-- A fetch worker's return value `{"worker_id": wid, "requests": len(results)}`. -/
structure FetchWorkerResult where
  worker_id : Nat
  requests : Nat
deriving DecidableEq

/-- The body of the fetch worker's `for i in range(1, 6)` loop, one
iteration per remaining attempt outcome, starting at attempt number `i`:
`try: response = get(...); if response.status_code == 200: results.append
({"attempt": i, "status": code}) except Exception as e: results.append
({"attempt": i, "error": str(e)})`. -/
def workerLoop (i : Nat) (attempts : List Attempt) (results : List ResultEntry) :
    List ResultEntry :=
  match attempts with
  | [] => results
  | a :: rest =>
      let results2 :=
        match a with
        | Attempt.response code =>
            if code = 200 then results ++ [ResultEntry.success i code] else results
        | Attempt.exception m => results ++ [ResultEntry.failure i m]
      workerLoop (i + 1) rest results2

/-- Embedding of `worker(worker_id)` of the fetch benchmarks, given the outcomes of its
(five) GET calls: runs the attempt loop from `i = 1` with `results = []`
and returns `{"worker_id": worker_id, "requests": len(results)}`. -/
def fetchWorker (worker_id : Nat) (attempts : List Attempt) : FetchWorkerResult :=
  { worker_id := worker_id, requests := (workerLoop 1 attempts []).length }

/-- An attempt whose GET returned normally with a status other than 200. -/
def isNon200 : Attempt → Bool
  | Attempt.response code => code ≠ 200
  | Attempt.exception _ => false

/-- An attempt whose GET raised an exception. -/
def isExc : Attempt → Bool
  | Attempt.response _ => false
  | Attempt.exception _ => true

/-- A result entry recording an error. -/
def isFailureEntry : ResultEntry → Bool
  | ResultEntry.success _ _ => false
  | ResultEntry.failure _ _ => true

/-! The spawn benchmarks and their dispatchers. -/

/-- A CPU worker's return value `{"worker_id": wid, "sum": sum}`
(`bench/spawn_benchmark.py` and `bench/spawn_benchmark_spawn_only.py`). -/
structure CpuWorkerResult where
  worker_id : Nat
  sum : Nat
deriving DecidableEq

/-- Embedding of `worker(worker_id)` of `bench/spawn_benchmark.py`: counts
`sum = sum + i % 10` for `i in range(1, 1000001)`. -/
def cpuWorker (worker_id : Nat) : CpuWorkerResult :=
  { worker_id := worker_id, sum := pyFor 1 1000001 (fun sum i => sum + i % 10) 0 }

/-- The argument list `[(i,) for i in range(1, 1001)]` passed to
`pool.starmap` in `bench/spawn_benchmark.py` (as the list of worker ids). -/
def spawn_inputs : List Nat := List.range' 1 1000

/-- Embedding of `results = pool.starmap(worker, ...)`: `starmap` applies `worker` to
each argument tuple and collects the return values in argument order. -/
def spawn_results : List CpuWorkerResult := spawn_inputs.map cpuWorker

/-- The worker ids submitted in `bench/spawn_benchmark_fetch.py`
(`executor.submit(worker, i) for i in range(1, 1001)`). -/
def fetch_futures : List Nat := List.range' 1 1000

/-- The worker ids submitted in the lite fetch benchmarks
(`executor.submit(worker, i) for i in range(1, 101)`). -/
def lite_futures : List Nat := List.range' 1 100

/-- Embedding of `results = [f.result() for f in as_completed(futures)]`:
`as_completed` yields every future exactly once, in completion order.
`order` is that completion order (a permutation of the submitted ids in the
theorems below) and `env i` the GET outcomes seen by worker `i`. -/
def fetch_results (env : Nat → List Attempt) (order : List Nat) :
    List FetchWorkerResult :=
  order.map (fun i => fetchWorker i (env i))

/-- Effective size of `multiprocessing.Pool(processes=p)`: per the Python
documentation, when `processes` is `None` the pool uses `os.cpu_count()`
worker processes. -/
def poolSize (processes : Option Nat) (cpu_count : Nat) : Nat :=
  processes.getD cpu_count

/-- Argument of `bench/spawn_benchmark.py` line 23: `multiprocessing.Pool(processes=None)`. -/
def spawnPoolProcessesArg : Option Nat := none

/-- Argument of `bench/spawn_benchmark_spawn_only.py` line 25: `multiprocessing.Pool(processes=None)`. -/
def spawnOnlyPoolProcessesArg : Option Nat := none

/-- Argument of `bench/spawn_benchmark_fetch.py` line 33: `ThreadPoolExecutor(max_workers=1000)`. -/
def fetchMaxWorkers : Nat := 1000

/-- Argument of `bench/spawn_benchmark_fetch_lite.py` line 24: `ThreadPoolExecutor(max_workers=100)`. -/
def fetchLiteMaxWorkers : Nat := 100

/-- Argument of `bench/spawn_benchmark_fetch_lite_memory.py` line 29: `ThreadPoolExecutor(max_workers=100)`. -/
def fetchLiteMemoryMaxWorkers : Nat := 100

/-! Clock samples of the fetch benchmark main function. -/

/-- The six `time.time() * 1000` samples taken by
`bench/spawn_benchmark_fetch.py`'s `main`, in program order:
`start`, `spawn_start`, after submission, `wait_start`, after collection,
and at the end. -/
structure FetchClock where
  start : ℚ
  spawn_start : ℚ
  after_submit : ℚ
  wait_start : ℚ
  after_wait : ℚ
  finish : ℚ

/-- Interval `spawn_time = time.time() * 1000 - spawn_start`. -/
def fetch_spawn_time (c : FetchClock) : ℚ :=
  BenchmarkPy.elapsedMs c.spawn_start c.after_submit

/-- Interval `wait_time = time.time() * 1000 - wait_start`. -/
def fetch_wait_time (c : FetchClock) : ℚ :=
  BenchmarkPy.elapsedMs c.wait_start c.after_wait

/-- Interval `total_time = time.time() * 1000 - start`. -/
def fetch_total_time (c : FetchClock) : ℚ :=
  BenchmarkPy.elapsedMs c.start c.finish

/-- The samples were taken in program order from a forward-moving clock. -/
def FetchClock.ProgramOrder (c : FetchClock) : Prop :=
  c.start ≤ c.spawn_start ∧ c.spawn_start ≤ c.after_submit ∧
  c.after_submit ≤ c.wait_start ∧ c.wait_start ≤ c.after_wait ∧
  c.after_wait ≤ c.finish

/-! Helper lemmas about the fetch worker loop. -/

/-- Completion accounting for the attempt loop: recorded entries (successes
plus errors) and silently dropped non-200 responses partition the attempts. -/
lemma workerLoop_length (attempts : List Attempt) :
    ∀ (i : Nat) (acc : List ResultEntry),
      (workerLoop i attempts acc).length + attempts.countP isNon200
        = acc.length + attempts.length := by
  induction attempts with
  | nil => intro i acc; simp [workerLoop]
  | cons a rest ih =>
      intro i acc
      cases a with
      | response code =>
          by_cases h : code = 200
          · subst h
            have hh := ih (i + 1) (acc ++ [ResultEntry.success i 200])
            simp only [List.length_append, List.length_cons, List.length_nil] at hh
            simp [workerLoop, List.countP_cons, isNon200]
            omega
          · have hh := ih (i + 1) acc
            simp [workerLoop, h, List.countP_cons, isNon200]
            omega
      | exception m =>
          have hh := ih (i + 1) (acc ++ [ResultEntry.failure i m])
          simp only [List.length_append, List.length_cons, List.length_nil] at hh
          simp [workerLoop, List.countP_cons, isNon200]
          omega

/-- Every exception attempt, and nothing else, produces an error entry. -/
lemma workerLoop_countFailure (attempts : List Attempt) :
    ∀ (i : Nat) (acc : List ResultEntry),
      (workerLoop i attempts acc).countP isFailureEntry
        = acc.countP isFailureEntry + attempts.countP isExc := by
  induction attempts with
  | nil => intro i acc; simp [workerLoop]
  | cons a rest ih =>
      intro i acc
      cases a with
      | response code =>
          by_cases h : code = 200
          · subst h
            have hh := ih (i + 1) (acc ++ [ResultEntry.success i 200])
            simp [List.countP_append, List.countP_cons, isFailureEntry] at hh
            simp [workerLoop, List.countP_cons, isExc]
            omega
          · have hh := ih (i + 1) acc
            simp [workerLoop, h, List.countP_cons, isExc]
            omega
      | exception m =>
          have hh := ih (i + 1) (acc ++ [ResultEntry.failure i m])
          simp [List.countP_append, List.countP_cons, isFailureEntry] at hh
          simp [workerLoop, List.countP_cons, isExc]
          omega

/-! The claims. -/

/-- C7: the function `test_arithmetic()` returns exactly the closed-form value of the
sum of `i mod 10` over `i ∈ [1, 1000000]`, i.e. `100000 × (0+1+⋯+9) =
4,500,000`. -/
theorem c7_test_arithmetic_closed_form :
    BenchmarkPy.test_arithmetic = 100000 * (0 + 1 + 2 + 3 + 4 + 5 + 6 + 7 + 8 + 9) ∧
    BenchmarkPy.test_arithmetic = 4500000 := by
  constructor
  · show pyFor 1 1000001 (fun sum i => sum + i % 10) 0
      = 100000 * (0 + 1 + 2 + 3 + 4 + 5 + 6 + 7 + 8 + 9)
    rw [arith_loop_value]
  · exact arith_loop_value

/-- Folding `s + g j` over a list adds the sum of `g` over the list. -/
lemma foldl_add_map (g : Nat → Nat) :
    ∀ (l : List Nat) (acc : Nat),
      l.foldl (fun s j => s + g j) acc = acc + (l.map g).sum := by
  intro l
  induction l with
  | nil => intro acc; simp
  | cons a t ih =>
      intro acc
      simp only [List.foldl_cons, List.map_cons, List.sum_cons, ih (acc + g a)]
      omega

/-- Sum of the integers from 1 to 100. -/
lemma range'_sum_100 : (List.range' 1 100).sum = 5050 := by decide

/-- The nested-loop workload evaluates to `25,502,500`. -/
lemma nested_loop_value : BenchmarkPy.test_nested_loops = 25502500 := by
  have hinner : ∀ (i acc : Nat),
      pyFor 1 101 (fun sum2 j => sum2 + i * j) acc = acc + i * 5050 := by
    intro i acc
    show (List.range' 1 100).foldl (fun s j => s + i * j) acc = acc + i * 5050
    rw [foldl_add_map (fun j => i * j) (List.range' 1 100) acc, List.sum_map_mul_left]
    simp only [List.map_id']
    rw [range'_sum_100]
  show (List.range' 1 100).foldl
    (fun sum i => pyFor 1 101 (fun sum2 j => sum2 + i * j) sum) 0 = 25502500
  have hfun : (fun (sum i : Nat) => pyFor 1 101 (fun sum2 j => sum2 + i * j) sum)
      = fun sum i => sum + i * 5050 := by
    funext sum i
    exact hinner i sum
  rw [hfun, foldl_add_map (fun i => i * 5050) (List.range' 1 100) 0,
    List.sum_map_mul_right]
  simp only [List.map_id']
  rw [range'_sum_100]
  norm_num

/-- C8: the function `test_nested_loops()` returns exactly
`(Σ i, i=1..100) × (Σ j, j=1..100) = 5050 × 5050 = 25,502,500`. -/
theorem c8_test_nested_loops_product_of_sums :
    BenchmarkPy.test_nested_loops
      = (∑ i in Finset.Icc 1 100, i) * (∑ j in Finset.Icc 1 100, j) ∧
    BenchmarkPy.test_nested_loops = 25502500 := by
  have hsum : (∑ i in Finset.Icc 1 100, (i : ℕ)) = 5050 := by
    have h : Finset.Icc 1 100 = Finset.Ico 1 101 := by rw [Nat.Ico_succ_right]
    rw [h, Finset.sum_Ico_eq_sum_range]
    simp only [Nat.add_comm]
    rw [Finset.sum_range_succ_comm]
    decide
  have hval : BenchmarkPy.test_nested_loops = 25502500 := nested_loop_value
  exact ⟨by rw [hsum, hval], hval⟩

/-- C4: for every label and zero-argument workload that returns normally,
`benchmark(label, fn)` invokes `fn` exactly once (the workload's effect on
the state happens once), returns exactly the value `fn` returned, and
emits exactly one line `label: <elapsed>ms`, the elapsed value formatted
with one digit after the decimal point. -/
theorem c4_benchmark_success {σ ε α : Type} (name : String)
    (fn : σ → Except ε (α × σ)) (t0 t1 : ℚ) (s0 : σ) (r : α) (s1 : σ)
    (h : fn s0 = Except.ok (r, s1)) :
    BenchmarkPy.benchmark name fn t0 t1 s0 =
      (Except.ok (r, s1),
        [name ++ ": " ++ BenchmarkPy.fmt1 (BenchmarkPy.elapsedMs t0 t1) ++ "ms"]) ∧
    ∃ intPart digit : String,
      BenchmarkPy.fmt1 (BenchmarkPy.elapsedMs t0 t1) = intPart ++ "." ++ digit ∧
      digit.length = 1 := by
  constructor
  · simp [BenchmarkPy.benchmark, h]
  · exact ⟨toString (BenchmarkPy.roundHalfEven (10 * BenchmarkPy.elapsedMs t0 t1) / 10),
      String.singleton (Nat.digitChar
        ((BenchmarkPy.roundHalfEven (10 * BenchmarkPy.elapsedMs t0 t1)) % 10).toNat),
      rfl, rfl⟩

/-- Witness for C4 at a concrete workload. -/
theorem c4_benchmark_success_witness :
    (fun s : Unit => (Except.ok ((7 : Nat), s) : Except Unit (Nat × Unit))) ()
        = Except.ok (7, ()) ∧
    (BenchmarkPy.benchmark "Arithmetic"
        (fun s : Unit => (Except.ok ((7 : Nat), s) : Except Unit (Nat × Unit)))
        0 2 () =
      (Except.ok (7, ()),
        ["Arithmetic" ++ ": " ++ BenchmarkPy.fmt1 (BenchmarkPy.elapsedMs 0 2) ++ "ms"]) ∧
    ∃ intPart digit : String,
      BenchmarkPy.fmt1 (BenchmarkPy.elapsedMs 0 2) = intPart ++ "." ++ digit ∧
      digit.length = 1) :=
  ⟨rfl, c4_benchmark_success "Arithmetic"
    (fun s : Unit => (Except.ok ((7 : Nat), s) : Except Unit (Nat × Unit)))
    0 2 () 7 () rfl⟩

/-- C6: if the workload raises, `benchmark` propagates that same exception
uncaught and emits no output line. -/
theorem c6_benchmark_propagates_exception {σ ε α : Type} (name : String)
    (fn : σ → Except ε (α × σ)) (t0 t1 : ℚ) (s0 : σ) (e : ε)
    (h : fn s0 = Except.error e) :
    BenchmarkPy.benchmark name fn t0 t1 s0 = (Except.error e, ([] : List String)) := by
  simp [BenchmarkPy.benchmark, h]

/-- Witness for C6 at a concrete raising workload. -/
theorem c6_benchmark_propagates_exception_witness :
    (fun _ : Unit => (Except.error 42 : Except Nat (Nat × Unit))) () = Except.error 42 ∧
    BenchmarkPy.benchmark "boom" (fun _ : Unit => (Except.error 42 : Except Nat (Nat × Unit)))
        0 1 () = (Except.error 42, ([] : List String)) :=
  ⟨rfl, c6_benchmark_propagates_exception "boom"
    (fun _ : Unit => (Except.error 42 : Except Nat (Nat × Unit))) 0 1 () 42 rfl⟩

/-- C5: every reported interval (the harness's elapsed and the fetch
benchmark's spawn/wait/total intervals) is non-negative, given that it is
the difference of two clock samples taken in program order from a
forward-moving clock. -/
theorem c5_elapsed_nonneg (c : FetchClock) (t0 t1 : ℚ)
    (hc : c.ProgramOrder) (ht : t0 ≤ t1) :
    0 ≤ BenchmarkPy.elapsedMs t0 t1 ∧ 0 ≤ fetch_spawn_time c ∧
    0 ≤ fetch_wait_time c ∧ 0 ≤ fetch_total_time c := by
  obtain ⟨h1, h2, h3, h4, h5⟩ := hc
  refine ⟨?_, ?_, ?_, ?_⟩ <;>
    simp only [BenchmarkPy.elapsedMs, fetch_spawn_time, fetch_wait_time,
      fetch_total_time, sub_nonneg] <;>
    linarith

/-- Witness for C5 at a concrete clock trace. -/
theorem c5_elapsed_nonneg_witness :
    (FetchClock.mk 0 0 0 0 0 0).ProgramOrder ∧ (0 : ℚ) ≤ 0 ∧
    (0 ≤ BenchmarkPy.elapsedMs 0 0 ∧ 0 ≤ fetch_spawn_time (FetchClock.mk 0 0 0 0 0 0) ∧
     0 ≤ fetch_wait_time (FetchClock.mk 0 0 0 0 0 0) ∧
     0 ≤ fetch_total_time (FetchClock.mk 0 0 0 0 0 0)) :=
  ⟨⟨le_refl 0, le_refl 0, le_refl 0, le_refl 0, le_refl 0⟩, le_refl 0,
    c5_elapsed_nonneg (FetchClock.mk 0 0 0 0 0 0) 0 0
      ⟨le_refl 0, le_refl 0, le_refl 0, le_refl 0, le_refl 0⟩ (le_refl 0)⟩

/-- C1 as stated is false: an attempt whose GET returns normally with a
non-200 status is recorded neither as a success nor as an error entry, so
with one such attempt the worker's returned attempt count is 4, not 5, and
no error entry records that failure. -/
theorem c1_counterexample :
    (fetchWorker 1 [Attempt.response 500, Attempt.response 200, Attempt.response 200,
        Attempt.response 200, Attempt.response 200]).requests = 4 ∧
    (fetchWorker 1 [Attempt.response 500, Attempt.response 200, Attempt.response 200,
        Attempt.response 200, Attempt.response 200]).requests ≠ 5 ∧
    (workerLoop 1 [Attempt.response 500, Attempt.response 200, Attempt.response 200,
        Attempt.response 200, Attempt.response 200] []).countP isFailureEntry = 0 := by
  decide

/-- C1 (amended): over a worker's 5 attempts, every request failure raised
as an exception (timeout, connection error) is recorded as an error entry
rather than aborting the worker; a non-200 response is recorded neither as
a success nor as an error, so the returned attempt count (successes plus
recorded errors) plus the number of non-200 responses equals 5, and the
count equals exactly 5 when no attempt yields a non-200 response. -/
theorem c1_amended_failure_accounting (wid : Nat) (attempts : List Attempt)
    (h : attempts.length = 5) :
    (workerLoop 1 attempts []).countP isFailureEntry = attempts.countP isExc ∧
    (fetchWorker wid attempts).requests + attempts.countP isNon200 = 5 ∧
    ((∀ a ∈ attempts, isNon200 a = false) → (fetchWorker wid attempts).requests = 5) := by
  have hlen := workerLoop_length attempts 1 []
  have hcf := workerLoop_countFailure attempts 1 []
  refine ⟨by simpa using hcf, ?_, ?_⟩
  · show (workerLoop 1 attempts []).length + attempts.countP isNon200 = 5
    simp only [List.length_nil] at hlen
    omega
  · intro hall
    have hz : attempts.countP isNon200 = 0 := by
      rw [List.countP_eq_zero]
      intro a ha
      simp [hall a ha]
    show (workerLoop 1 attempts []).length = 5
    simp only [List.length_nil] at hlen
    omega

/-- Witness for the amended C1 at a concrete attempt trace containing both
exception failures and successes. -/
theorem c1_amended_failure_accounting_witness :
    ([Attempt.exception "timeout", Attempt.response 200, Attempt.exception "refused",
      Attempt.response 200, Attempt.response 200] : List Attempt).length = 5 ∧
    ((workerLoop 1 [Attempt.exception "timeout", Attempt.response 200,
        Attempt.exception "refused", Attempt.response 200, Attempt.response 200]
        []).countP isFailureEntry
      = ([Attempt.exception "timeout", Attempt.response 200, Attempt.exception "refused",
          Attempt.response 200, Attempt.response 200] : List Attempt).countP isExc ∧
    (fetchWorker 7 [Attempt.exception "timeout", Attempt.response 200,
        Attempt.exception "refused", Attempt.response 200,
        Attempt.response 200]).requests
      + ([Attempt.exception "timeout", Attempt.response 200, Attempt.exception "refused",
          Attempt.response 200, Attempt.response 200] : List Attempt).countP isNon200
      = 5 ∧
    ((∀ a ∈ ([Attempt.exception "timeout", Attempt.response 200,
        Attempt.exception "refused", Attempt.response 200,
        Attempt.response 200] : List Attempt), isNon200 a = false) →
      (fetchWorker 7 [Attempt.exception "timeout", Attempt.response 200,
          Attempt.exception "refused", Attempt.response 200,
          Attempt.response 200]).requests = 5)) :=
  ⟨rfl, c1_amended_failure_accounting 7 _ rfl⟩

/-- C2 as stated is false for the process-pool benchmarks: they pass
`processes=None` to `multiprocessing.Pool`, so on a machine with 8 CPUs
the pool's worker-slot bound is 8, far below the N = 1000 submitted
workers. -/
theorem c2_counterexample :
    poolSize spawnPoolProcessesArg 8 = 8 ∧ ¬ 1000 ≤ poolSize spawnPoolProcessesArg 8 := by
  decide

/-- C2 (amended): the thread-pool fetch benchmarks size their executor to
exactly N (`max_workers=1000` for the full benchmark, `100` for the lite
and memory variants); the process-pool benchmarks pass `processes=None`,
so their pool is sized to the machine's CPU count, not to N. -/
theorem c2_amended_pool_bounds :
    fetchMaxWorkers = 1000 ∧ fetchLiteMaxWorkers = 100 ∧
    fetchLiteMemoryMaxWorkers = 100 ∧
    spawnPoolProcessesArg = none ∧ spawnOnlyPoolProcessesArg = none ∧
    (∀ cpu_count : Nat, poolSize spawnPoolProcessesArg cpu_count = cpu_count ∧
      poolSize spawnOnlyPoolProcessesArg cpu_count = cpu_count) :=
  ⟨rfl, rfl, rfl, rfl, rfl, fun _ => ⟨rfl, rfl⟩⟩

/-- C3: each awaiting benchmark collects exactly as many results as workers
were submitted: 1000 for the process-pool benchmark (`starmap` keeps one
result per argument), 1000 for the full fetch benchmark and 100 for the
lite fetch benchmark (`as_completed` yields every submitted future exactly
once, in some completion order). -/
theorem c3_collected_results_count (env1 env2 : Nat → List Attempt)
    (order1 order2 : List Nat)
    (h1 : order1.Perm fetch_futures) (h2 : order2.Perm lite_futures) :
    spawn_results.length = 1000 ∧
    (fetch_results env1 order1).length = 1000 ∧
    (fetch_results env2 order2).length = 100 := by
  refine ⟨?_, ?_, ?_⟩
  · simp only [spawn_results, spawn_inputs, List.length_map, List.length_range']
  · simp only [fetch_results, List.length_map, h1.length_eq, fetch_futures,
      List.length_range']
  · simp only [fetch_results, List.length_map, h2.length_eq, lite_futures,
      List.length_range']

/-- Witness for C3 with the identity completion order. -/
theorem c3_collected_results_count_witness :
    fetch_futures.Perm fetch_futures ∧ lite_futures.Perm lite_futures ∧
    (spawn_results.length = 1000 ∧
     (fetch_results (fun _ => []) fetch_futures).length = 1000 ∧
     (fetch_results (fun _ => []) lite_futures).length = 100) :=
  ⟨List.Perm.refl _, List.Perm.refl _,
    c3_collected_results_count (fun _ => []) (fun _ => []) fetch_futures lite_futures
      (List.Perm.refl _) (List.Perm.refl _)⟩

/-- C9: a fetch worker's returned `requests` count is at most 5, and it is
strictly below 5 exactly when some attempt's GET returned normally with a
status other than 200 (such an attempt appends no entry at all). -/
theorem c9_requests_below_five_iff_non200 (wid : Nat) (attempts : List Attempt)
    (h : attempts.length = 5) :
    (fetchWorker wid attempts).requests ≤ 5 ∧
    ((fetchWorker wid attempts).requests < 5 ↔ ∃ a ∈ attempts, isNon200 a = true) := by
  have hlen := workerLoop_length attempts 1 []
  simp only [List.length_nil] at hlen
  constructor
  · show (workerLoop 1 attempts []).length ≤ 5
    omega
  · show (workerLoop 1 attempts []).length < 5 ↔ _
    constructor
    · intro hlt
      exact List.countP_pos_iff.mp (by omega)
    · intro hex
      have hpos := List.countP_pos_iff.mpr hex
      omega

/-- Witness for C9 at a concrete attempt trace with a 404 response. -/
theorem c9_requests_below_five_iff_non200_witness :
    ([Attempt.response 404, Attempt.exception "reset", Attempt.response 200,
      Attempt.response 200, Attempt.response 200] : List Attempt).length = 5 ∧
    ((fetchWorker 3 [Attempt.response 404, Attempt.exception "reset",
        Attempt.response 200, Attempt.response 200, Attempt.response 200]).requests ≤ 5 ∧
     ((fetchWorker 3 [Attempt.response 404, Attempt.exception "reset",
        Attempt.response 200, Attempt.response 200, Attempt.response 200]).requests < 5 ↔
      ∃ a ∈ ([Attempt.response 404, Attempt.exception "reset", Attempt.response 200,
          Attempt.response 200, Attempt.response 200] : List Attempt),
        isNon200 a = true)) :=
  ⟨rfl, c9_requests_below_five_iff_non200 3 _ rfl⟩

/-- C10: the process-pool benchmark's `starmap` results preserve submission
order: the k-th collected result (1-based) is
`{"worker_id": k, "sum": 4500000}`. -/
theorem c10_spawn_results_ordered (k : Nat) (h1 : 1 ≤ k) (h2 : k ≤ 1000) :
    spawn_results[k - 1]? = some { worker_id := k, sum := 4500000 } := by
  have hk : k - 1 < 1000 := by omega
  have hmain : spawn_inputs[k - 1]? = some k := by
    show (List.range' 1 1000)[k - 1]? = some k
    rw [List.getElem?_range' 1 1 hk]
    congr 1
    omega
  show (spawn_inputs.map cpuWorker)[k - 1]? = _
  rw [List.getElem?_map, hmain]
  simp [cpuWorker, arith_loop_value]

/-- Witness for C10 at k = 42. -/
theorem c10_spawn_results_ordered_witness :
    (1 : Nat) ≤ 42 ∧ (42 : Nat) ≤ 1000 ∧
    spawn_results[42 - 1]? = some { worker_id := 42, sum := 4500000 } :=
  ⟨by decide, by decide, c10_spawn_results_ordered 42 (by decide) (by decide)⟩
